import Mathlib

/-!
Shallow embedding of the clinical scoring and report-assembly pipeline of the
ASD-Screening-Tool backend (src/routes/report.js), together with the request
validation middleware and the POST /generate-report handler.

Modelling conventions:
* JavaScript numbers are modelled as exact rationals (`ℚ`); the special values
  produced by division by zero are modelled by the inductive `JSNum`
  (`nan`, `posInf`, `negInf`, or a finite `num q`).
* `Math.round x` for a finite `x` is `⌊x + 1/2⌋` (JS rounds half toward +∞).
* Absent / null JSON fields are modelled with `Option`; JS truthiness of the
  fields actually tested by the code is modelled by the `truthy*` helpers
  (a missing field, the empty string and the number 0 are falsy).
* The outbound OpenAI call of the handler is abstracted as an
  `Except Unit String` parameter: `.ok content` is the completion text,
  `.error ()` is any failure of the call (auth, quota, network, timeout,
  non-2xx); the `try/catch` of the handler is modelled by matching on it.
* The nondeterministic timestamp `new Date().toISOString()` is passed in as
  the `now` parameter.
-/

/- Batteries marks the rational-number arithmetic operations irreducible, which
blocks `decide`-style evaluation of the scoring functions on concrete inputs;
restore the default reducibility for this file. -/
attribute [local semireducible] Rat.add Rat.mul Rat.sub Rat.inv

namespace ASDScreening

/-! ## Data model (spec §3, shapes used by src/routes/report.js) -/

structure EmotionTrial where
  isCorrect : Bool
deriving DecidableEq, Repr

structure ReactionTrial where
  valid : Bool
  reactionTime : ℚ
deriving DecidableEq, Repr

structure PatternTrial where
  isCorrect : Bool
deriving DecidableEq, Repr

structure TestResults where
  emotionTest : Option (List EmotionTrial)
  reactionTest : Option (List ReactionTrial)
  patternTest : Option (List PatternTrial)
deriving DecidableEq, Repr

structure PatientInfo where
  id : Option String
  name : Option String
  age : Option ℚ
  gender : Option String
deriving DecidableEq, Repr

structure RequestBody where
  testResults : Option TestResults
  patientInfo : Option PatientInfo
deriving DecidableEq, Repr

/-! ## JavaScript number model -/

/-- Result of a JavaScript arithmetic expression: `NaN`, `±Infinity`, or a
finite value (modelled exactly as a rational). -/
inductive JSNum where
  | nan : JSNum
  | posInf : JSNum
  | negInf : JSNum
  | num : ℚ → JSNum
deriving DecidableEq, Repr

/-- `Math.round` on a finite JS number: floor of `q + 1/2`. -/
def jsRoundQ (q : ℚ) : ℤ :=
  ⌊q + 1 / 2⌋

/-- JavaScript division `a / b`: `0/0 = NaN`, `a/0 = ±Infinity` for `a ≠ 0`. -/
def jsDiv (a b : ℚ) : JSNum :=
  if b = 0 then
    if a = 0 then JSNum.nan
    else if 0 < a then JSNum.posInf
    else JSNum.negInf
  else JSNum.num (a / b)

/-- `Math.round` lifted to `JSNum` (`Math.round NaN = NaN`, `Math.round ±∞ = ±∞`). -/
def jsRound : JSNum → JSNum
  | JSNum.nan => JSNum.nan
  | JSNum.posInf => JSNum.posInf
  | JSNum.negInf => JSNum.negInf
  | JSNum.num q => JSNum.num ((jsRoundQ q : ℤ) : ℚ)

/-- JavaScript `x <= q` comparison for a `JSNum` left operand against a finite
bound: any comparison with `NaN` is false. -/
def jsLe (a : JSNum) (q : ℚ) : Bool :=
  match a with
  | JSNum.nan => false
  | JSNum.posInf => false
  | JSNum.negInf => true
  | JSNum.num x => decide (x ≤ q)

/-! ## Scoring functions (src/routes/report.js, calculate*) -/

/-- `calculateEmotionScore(emotionTest)`: `if (!emotionTest || !emotionTest.length) return 0;`
then `Math.round((correct / emotionTest.length) * 100)` where `correct` counts
trials with `isCorrect` truthy. The argument is `Option`-wrapped: `none` models
an absent/null `emotionTest` field. -/
def calculateEmotionScore (emotionTest : Option (List EmotionTrial)) : ℤ :=
  match emotionTest with
  | none => 0
  | some ts =>
    if ts.length = 0 then 0
    else
      let correct := (ts.filter (fun t => t.isCorrect)).length
      jsRoundQ (((correct : ℚ) / (ts.length : ℚ)) * 100)

/-- `calculateReactionScore(reactionTest)`: guard empty/absent to 0, then
`Math.round(validTimes.reduce((a, b) => a + b, 0) / validTimes.length)` over
the `valid` trials; with zero valid trials this is `Math.round(0 / 0) = NaN`. -/
def calculateReactionScore (reactionTest : Option (List ReactionTrial)) : JSNum :=
  match reactionTest with
  | none => JSNum.num 0
  | some ts =>
    if ts.length = 0 then JSNum.num 0
    else
      let validTimes := (ts.filter (fun t => t.valid)).map (fun t => t.reactionTime)
      jsRound (jsDiv (validTimes.foldl (· + ·) 0) (validTimes.length : ℚ))

/-- `calculatePatternScore(patternTest)`: same formula as the emotion score. -/
def calculatePatternScore (patternTest : Option (List PatternTrial)) : ℤ :=
  match patternTest with
  | none => 0
  | some ts =>
    if ts.length = 0 then 0
    else
      let correct := (ts.filter (fun t => t.isCorrect)).length
      jsRoundQ (((correct : ℚ) / (ts.length : ℚ)) * 100)

/-! ## Interpretation functions (src/routes/report.js, interpret*) -/

def interpretEmotionScore (score : ℤ) : String :=
  if score ≥ 80 then "Strong emotion recognition abilities"
  else if score ≥ 60 then "Moderate emotion recognition abilities"
  else "Difficulty with emotion recognition, further assessment recommended"

def interpretReactionScore (score : JSNum) : String :=
  if jsLe score 300 then "Quick reaction time, within typical range"
  else if jsLe score 500 then "Moderate reaction time"
  else "Delayed reaction time, may indicate attention processing differences"

def interpretPatternScore (score : ℤ) : String :=
  if score ≥ 80 then "Strong pattern recognition and memory abilities"
  else if score ≥ 60 then "Moderate pattern recognition abilities"
  else "Difficulty with pattern recognition, further assessment recommended"

/-! ## Request validation (src/routes/report.js, validateReportData) -/

/-- JS truthiness of an optional string field: absent/null and `""` are falsy. -/
def truthyOptStr : Option String → Bool
  | none => false
  | some s => !(s == "")

/-- JS truthiness of an optional numeric field: absent/null and `0` are falsy. -/
def truthyOptNum : Option ℚ → Bool
  | none => false
  | some q => !(q == 0)

inductive ValidationOutcome where
  | reject (error : String) : ValidationOutcome
  | pass : ValidationOutcome
deriving DecidableEq, Repr

/-- `validateReportData`: 400 `'Missing required data'` when `!testResults || !patientInfo`;
400 `'Invalid patient information'` when `!patientInfo.id || !patientInfo.name || !patientInfo.age`;
otherwise `next()`. Note that `patientInfo.gender` is never tested. -/
def validateReportData (body : RequestBody) : ValidationOutcome :=
  match body.testResults, body.patientInfo with
  | none, _ => ValidationOutcome.reject "Missing required data"
  | _, none => ValidationOutcome.reject "Missing required data"
  | some _, some pinfo =>
    if !truthyOptStr pinfo.id || !truthyOptStr pinfo.name || !truthyOptNum pinfo.age then
      ValidationOutcome.reject "Invalid patient information"
    else
      ValidationOutcome.pass

/-! ## String primitives used by parseGeneratedReport

The parser works over JavaScript strings; we model the handful of string
operations the source uses (`trim`, `toLowerCase`, `includes`, `split('\n')`,
and `split(/regex/)`) directly over `List Char` / `String`. -/

/-- JS whitespace (`\s`, and the set removed by `String.prototype.trim`),
restricted to the code points that can occur in the ASCII-plus-NBSP text the
pipeline handles: space, tab, newline, carriage return, vertical tab, form
feed, and no-break space. -/
def isJsWs (c : Char) : Bool :=
  c == ' ' || c == '\t' || c == '\n' || c == '\r' ||
  c == Char.ofNat 11 || c == Char.ofNat 12 || c == Char.ofNat 160

/-- `String.prototype.trim`: strip leading and trailing whitespace. -/
def jsTrim (s : String) : String :=
  String.mk (((s.data.dropWhile isJsWs).reverse.dropWhile isJsWs).reverse)

/-- `String.prototype.toLowerCase` (ASCII, which covers all text compared by
the parser). -/
def jsToLower (s : String) : String :=
  String.mk (s.data.map Char.toLower)

/-- Exact prefix test on character lists. -/
def beginsWith : List Char → List Char → Bool
  | [], _ => true
  | _ :: _, [] => false
  | p :: ps, c :: cs => (p == c) && beginsWith ps cs

def containsSubAux (sub : List Char) : List Char → Bool
  | [] => beginsWith sub []
  | c :: rest => beginsWith sub (c :: rest) || containsSubAux sub rest

/-- `String.prototype.includes`: `sub` occurs contiguously in `text`. -/
def containsSub (text sub : String) : Bool :=
  containsSubAux sub.data text.data

/-- Case-insensitive prefix test (the `i` flag of the section regex). -/
def ciBegins : List Char → List Char → Bool
  | [], _ => true
  | _ :: _, [] => false
  | p :: ps, c :: cs => (p.toLower == c.toLower) && ciBegins ps cs

/-- The six literal section headings of the regex in `parseGeneratedReport`,
in alternation order. -/
def headingList : List String :=
  ["EXECUTIVE SUMMARY", "DETAILED OBSERVATIONS", "COGNITIVE AND EMOTIONAL ASSESSMENT",
   "RED FLAGS AND RISK INDICATORS", "RECOMMENDATIONS", "CLINICAL DISCLAIMER"]

/-- If the text starts (case-insensitively) with one of the six headings,
the length of that heading. -/
def headingLenAt (cs : List Char) : Option Nat :=
  (headingList.find? (fun h => ciBegins h.data cs)).map String.length

/-- One attempted match of `/\d\.\s+(?:HEADING|…)/i` at the start of the text:
a digit, a literal dot, at least one whitespace character, then one of the six
headings; returns the total number of characters matched. (The `\s+` must end
exactly at the end of the whitespace run, since every heading starts with a
letter.) -/
def matchPatternLen : List Char → Option Nat
  | c :: d :: rest =>
    if c.isDigit && d == '.' then
      let wsLen := (rest.takeWhile isJsWs).length
      if wsLen == 0 then none
      else
        match headingLenAt (rest.drop wsLen) with
        | some hl => some (2 + wsLen + hl)
        | none => none
    else none
  | _ => none

/-- Does the section-heading pattern match anywhere in the text? -/
def containsPattern : List Char → Bool
  | [] => false
  | c :: rest => (matchPatternLen (c :: rest)).isSome || containsPattern rest

/-- `String.prototype.split` on the section regex, scanning left to right and
removing each matched delimiter; `fuel` bounds the recursion and any value
larger than the text length is adequate (proved below). -/
def splitFuel : Nat → List Char → List Char → List (List Char)
  | 0, _, acc => [acc.reverse]
  | _ + 1, [], acc => [acc.reverse]
  | fuel + 1, c :: rest, acc =>
    match matchPatternLen (c :: rest) with
    | some n => acc.reverse :: splitFuel fuel ((c :: rest).drop n) []
    | none => splitFuel fuel rest (c :: acc)

/-- `content.split(/\d\.\s+(?:EXECUTIVE SUMMARY|…)/i)`. -/
def splitSections (cs : List Char) : List (List Char) :=
  splitFuel (cs.length + 1) cs []

/-- `String.prototype.split('\n')`. -/
def splitOnNl : List Char → List (List Char)
  | [] => [[]]
  | c :: rest =>
    if c == '\n' then [] :: splitOnNl rest
    else
      match splitOnNl rest with
      | [] => [[c]]
      | l :: ls => (c :: l) :: ls

/-- `s.split('\n').filter(line => line.trim())`: the lines of `s` whose
trimmed form is nonempty. -/
def linesOf (s : String) : List String :=
  ((splitOnNl s.data).map String.mk).filter (fun l => !(jsTrim l == ""))

/-! ## parseGeneratedReport (src/routes/report.js) -/

structure Observation where
  category : String
  details : String
deriving DecidableEq, Repr

structure GeneratedReport where
  observations : List Observation
  recommendations : List String
  redFlags : List String
deriving DecidableEq, Repr

/-- First branch of the classification chain:
`sectionContent.toLowerCase().includes('observation') || index === 1`. -/
def obsCond (idx : Nat) (sectionContent : String) : Bool :=
  containsSub (jsToLower sectionContent) "observation" || idx == 1

/-- Second branch: `sectionContent.toLowerCase().includes('recommend') || index === 4`. -/
def recCond (idx : Nat) (sectionContent : String) : Bool :=
  containsSub (jsToLower sectionContent) "recommend" || idx == 4

/-- Third branch: `sectionContent.toLowerCase().includes('red flag') || index === 3`. -/
def redCond (idx : Nat) (sectionContent : String) : Bool :=
  containsSub (jsToLower sectionContent) "red flag" || idx == 3

/-- The body of the `cleanSections.forEach((section, index) => …)` callback:
observations and recommendations are pushed (appended), while `redFlags` is
reassigned (`redFlags = flagPoints.map(…)`). -/
def classifyStep (st : GeneratedReport) (idx : Nat) (sec : String) : GeneratedReport :=
  let sectionContent := jsTrim sec
  if obsCond idx sectionContent then
    let observationPoints := linesOf sectionContent
    { st with observations :=
        st.observations ++ observationPoints.map (fun point => ⟨"Clinical Observation", jsTrim point⟩) }
  else if recCond idx sectionContent then
    let recommendationPoints := linesOf sectionContent
    { st with recommendations := st.recommendations ++ recommendationPoints.map jsTrim }
  else if redCond idx sectionContent then
    let flagPoints := linesOf sectionContent
    { st with redFlags := flagPoints.map jsTrim }
  else st

/-- `sections.filter(section => section.trim())`: the split fragments whose
trimmed form is nonempty. -/
def cleanSectionsOf (content : String) : List String :=
  ((splitSections content.data).map String.mk).filter (fun s => !(jsTrim s == ""))

/-- The `forEach` accumulation over the clean sections, starting from
`observations = []`, `recommendations = []`, `redFlags = []`. -/
def parseFromSections (secs : List String) : GeneratedReport :=
  secs.enum.foldl (fun st p => classifyStep st p.1 p.2) ⟨[], [], []⟩

/-- `parseGeneratedReport` with an explicit recursion bound on the regex
split (any bound above the text length gives the same result). -/
def parseGeneratedReportFuel (fuel : Nat) (content : String) : GeneratedReport :=
  parseFromSections (((splitFuel fuel content.data []).map String.mk).filter
    (fun s => !(jsTrim s == "")))

/-- `parseGeneratedReport(content)` from src/routes/report.js. -/
def parseGeneratedReport (content : String) : GeneratedReport :=
  parseFromSections (cleanSectionsOf content)

/-! ## The POST /generate-report handler (src/routes/report.js) -/

structure Scores where
  emotionScore : ℤ
  reactionScore : JSNum
  patternScore : ℤ
deriving DecidableEq, Repr

structure Interpretations where
  emotionTest : String
  reactionTest : String
  patternTest : String
deriving DecidableEq, Repr

/-- The final report record assembled by the handler. -/
structure Report where
  patientInfo : PatientInfo
  scores : Scores
  observations : List Observation
  interpretations : Interpretations
  recommendations : List String
  redFlags : List String
  timestamp : String
deriving DecidableEq, Repr

/-- HTTP outcome of the route: a 400 from the validation middleware, a 200
with the report, or the 500 produced by the catch handler. -/
inductive HandlerResult where
  | badRequest (error : String) : HandlerResult
  | ok (report : Report) : HandlerResult
  | serverError (error : String) : HandlerResult
deriving DecidableEq, Repr

/-- The `router.post('/generate-report', …)` handler behind the validation
middleware. The outbound OpenAI chat-completion call is abstracted as the
`llm` argument (`.ok content` = completion text, `.error ()` = any failure);
the surrounding `try { … } catch { res.status(500).json(…) }` is modelled by
the match on `llm`: every failure of the awaited call lands in the catch
branch. `now` is the `new Date().toISOString()` timestamp. The final
`| _, _` arm is unreachable, since validation only passes when both fields
are present. -/
def generateReportHandler (body : RequestBody) (llm : Except Unit String)
    (now : String) : HandlerResult :=
  match validateReportData body with
  | ValidationOutcome.reject e => HandlerResult.badRequest e
  | ValidationOutcome.pass =>
    match body.testResults, body.patientInfo with
    | some testResults, some patientInfo =>
      let scores : Scores :=
        { emotionScore := calculateEmotionScore testResults.emotionTest,
          reactionScore := calculateReactionScore testResults.reactionTest,
          patternScore := calculatePatternScore testResults.patternTest }
      match llm with
      | Except.error _ => HandlerResult.serverError "Failed to generate report"
      | Except.ok content =>
        let generatedReport := parseGeneratedReport content
        HandlerResult.ok
          { patientInfo := patientInfo,
            scores := scores,
            observations := generatedReport.observations,
            interpretations :=
              { emotionTest := interpretEmotionScore scores.emotionScore,
                reactionTest := interpretReactionScore scores.reactionScore,
                patternTest := interpretPatternScore scores.patternScore },
            recommendations := generatedReport.recommendations,
            redFlags := generatedReport.redFlags,
            timestamp := now }
    | _, _ => HandlerResult.serverError "Failed to generate report"

/-! ## Characterization predicates

Named forms of the branches of `classifyStep` and of the validation rule,
used to state theorems about the pipeline. Each mirrors the corresponding
condition of the source; the `*Classified` predicates additionally record the
first-match-wins order of the `else if` chain. -/

/-- An indexed clean fragment lands in the observations branch. -/
def obsClassified (p : Nat × String) : Bool :=
  obsCond p.1 (jsTrim p.2)

/-- An indexed clean fragment lands in the recommendations branch (the
observations branch did not fire). -/
def recClassified (p : Nat × String) : Bool :=
  !obsCond p.1 (jsTrim p.2) && recCond p.1 (jsTrim p.2)

/-- An indexed clean fragment lands in the red-flags branch (neither earlier
branch fired). -/
def redClassified (p : Nat × String) : Bool :=
  !obsCond p.1 (jsTrim p.2) && !recCond p.1 (jsTrim p.2) && redCond p.1 (jsTrim p.2)

/-- The observation records contributed by one fragment. -/
def obsEntriesOf (p : Nat × String) : List Observation :=
  (linesOf (jsTrim p.2)).map (fun point => ⟨"Clinical Observation", jsTrim point⟩)

/-- The recommendation entries contributed by one fragment. -/
def recEntriesOf (p : Nat × String) : List String :=
  (linesOf (jsTrim p.2)).map jsTrim

/-- The red-flag entries contributed by one fragment. -/
def redEntriesOf (p : Nat × String) : List String :=
  (linesOf (jsTrim p.2)).map jsTrim

/-- The exact condition under which `validateReportData` passes: both body
fields present and `id`, `name`, `age` truthy (`gender` is not examined). -/
def requiredFieldsTruthy (body : RequestBody) : Prop :=
  body.testResults ≠ none ∧
  ∃ pinfo, body.patientInfo = some pinfo ∧
    truthyOptStr pinfo.id = true ∧ truthyOptStr pinfo.name = true ∧
    truthyOptNum pinfo.age = true

/-- A completion text with three split fragments, the first and third of
which classify as red flags; used to exhibit the last-wins reassignment. -/
def demoContent : String :=
  "1. CLINICAL DISCLAIMER\nred flag a\n2. CLINICAL DISCLAIMER\nx\n3. CLINICAL DISCLAIMER\nred flag b"

/-! # Theorems -/

/-! ## General helper lemmas -/

theorem string_mk_data (s : String) : String.mk s.data = s := rfl

theorem foldl_add_eq_sum (l : List ℚ) : l.foldl (· + ·) 0 = l.sum := by
  suffices h : ∀ a : ℚ, l.foldl (· + ·) a = a + l.sum by simpa using h 0
  induction l with
  | nil => intro a; simp
  | cons x xs ih => intro a; simp [List.foldl_cons, ih, List.sum_cons]; ring

theorem validate_pass_iff (body : RequestBody) :
    validateReportData body = ValidationOutcome.pass ↔ requiredFieldsTruthy body := by
  obtain ⟨tr, pinfo⟩ := body
  cases tr with
  | none => simp [validateReportData, requiredFieldsTruthy]
  | some t =>
    cases pinfo with
    | none => simp [validateReportData, requiredFieldsTruthy]
    | some p =>
      simp only [validateReportData, requiredFieldsTruthy]
      by_cases h1 : truthyOptStr p.id = true <;>
      by_cases h2 : truthyOptStr p.name = true <;>
      by_cases h3 : truthyOptNum p.age = true <;>
      simp [h1, h2, h3]

/-! ## Claim C2 -/

/-- Claim C2 (corrected): for every NONEMPTY reaction-trial list with no
`valid=true` trial, `calculateReactionScore` is `NaN` (division `0/0`); the
empty (or absent) list is caught by the initial guard and yields the number
`0` instead, which is the counterexample to the claim as stated. -/
theorem C2_no_valid_trials_nan :
    (∀ ts : List ReactionTrial, ts ≠ [] → (∀ t ∈ ts, t.valid = false) →
      calculateReactionScore (some ts) = JSNum.nan) ∧
    calculateReactionScore (some []) = JSNum.num 0 ∧
    calculateReactionScore none = JSNum.num 0 := by
  refine ⟨?_, by decide, by decide⟩
  intro ts hne hall
  have hfilter : ts.filter (fun t => t.valid) = [] :=
    List.filter_eq_nil_iff.mpr (fun a ha => by simp [hall a ha])
  have hlen : ts.length ≠ 0 := by simpa [List.length_eq_zero] using hne
  simp [calculateReactionScore, hlen, hfilter, jsDiv, jsRound]

/-- Counterexample to claim C2 as stated: the empty list contains no trial
with `valid = true`, yet `calculateReactionScore` returns the number `0`
(via the `!reactionTest.length` guard), not `NaN`. -/
theorem C2_counterexample :
    calculateReactionScore (some ([] : List ReactionTrial)) = JSNum.num 0 ∧
    JSNum.num 0 ≠ JSNum.nan := by decide

/-- Witness for C2: a concrete nonempty all-invalid list evaluates to `NaN`. -/
theorem C2_witness :
    calculateReactionScore (some [({ valid := false, reactionTime := 100 } : ReactionTrial)]) =
      JSNum.nan :=
  C2_no_valid_trials_nan.1 [{ valid := false, reactionTime := 100 }] (by decide) (by simp)

/-! ## Claim C3 -/

/-- Claim C3 (confirmed): with at least one `valid=true` trial, the reaction
score is the rounded arithmetic mean of `reactionTime` over exactly the valid
trials; in particular the mixed list of the spec yields 300. -/
theorem C3_mean_of_valid_trials :
    (∀ ts : List ReactionTrial, (∃ t ∈ ts, t.valid = true) →
      calculateReactionScore (some ts) =
        JSNum.num ((jsRoundQ
          ((((ts.filter (fun t => t.valid)).map (fun t => t.reactionTime)).sum) /
            (((ts.filter (fun t => t.valid)).length : ℚ))) : ℤ))) ∧
    calculateReactionScore (some [⟨true, 200⟩, ⟨true, 400⟩, ⟨false, 9999⟩]) = JSNum.num 300 := by
  refine ⟨?_, by decide⟩
  rintro ts ⟨t, ht, hv⟩
  have hne : ts ≠ [] := List.ne_nil_of_mem ht
  have hlen : ts.length ≠ 0 := by simpa [List.length_eq_zero] using hne
  have hmemf : t ∈ ts.filter (fun t => t.valid) := List.mem_filter.mpr ⟨ht, hv⟩
  have hfne : (ts.filter (fun t => t.valid)).length ≠ 0 := by
    simpa [List.length_eq_zero] using List.ne_nil_of_mem hmemf
  have hnotall : ¬ (∀ a ∈ ts, a.valid = false) := fun h => by simp [h t ht] at hv
  simp [calculateReactionScore, hlen, jsDiv, jsRound, hnotall, foldl_add_eq_sum,
    List.length_map]

/-- Witness for C3: the mixed list, through the general mean theorem. -/
theorem C3_witness :
    calculateReactionScore (some [⟨true, 200⟩, ⟨true, 400⟩, ⟨false, 9999⟩]) = JSNum.num 300 := by
  rw [C3_mean_of_valid_trials.1 _ ⟨⟨true, 200⟩, by simp, rfl⟩]
  decide

/-! ## Claim C4 -/

theorem percent_bounds {c n : ℕ} (hc : c ≤ n) :
    0 ≤ jsRoundQ (((c : ℚ) / (n : ℚ)) * 100) ∧ jsRoundQ (((c : ℚ) / (n : ℚ)) * 100) ≤ 100 := by
  by_cases hn : (n : ℚ) = 0
  · rw [hn, div_zero, zero_mul]
    constructor <;> norm_num [jsRoundQ]
  · have hpos : (0 : ℚ) < n := lt_of_le_of_ne (Nat.cast_nonneg n) (Ne.symm hn)
    have hcn : (c : ℚ) ≤ n := by exact_mod_cast hc
    have h0 : 0 ≤ ((c : ℚ) / n) * 100 := by positivity
    have h1 : ((c : ℚ) / n) * 100 ≤ 100 := by
      have hd : (c : ℚ) / n ≤ 1 := (div_le_one hpos).mpr hcn
      nlinarith
    constructor
    · exact Int.le_floor.mpr (by push_cast; linarith)
    · have hlt : jsRoundQ (((c : ℚ) / n) * 100) < 101 :=
        Int.floor_lt.mpr (by push_cast; linarith)
      omega

theorem percent_all {n : ℕ} (hn : n ≠ 0) :
    jsRoundQ (((n : ℚ) / (n : ℚ)) * 100) = 100 := by
  rw [div_self (Nat.cast_ne_zero.mpr hn), one_mul]
  norm_num [jsRoundQ]

/-- Claim C4 (confirmed): emotion and pattern scores are 0 on the empty list,
otherwise the rounded percentage of correct trials, and always integers in
[0,100]; 100 when every (nonempty) trial is correct, 0 when none are. -/
theorem C4_percentage_scores :
    (calculateEmotionScore (some []) = 0 ∧ calculatePatternScore (some []) = 0) ∧
    (∀ ts : List EmotionTrial, ts ≠ [] →
      calculateEmotionScore (some ts) =
        jsRoundQ (100 * ((ts.filter (fun t => t.isCorrect)).length : ℚ) / (ts.length : ℚ))) ∧
    (∀ ts : List PatternTrial, ts ≠ [] →
      calculatePatternScore (some ts) =
        jsRoundQ (100 * ((ts.filter (fun t => t.isCorrect)).length : ℚ) / (ts.length : ℚ))) ∧
    (∀ ts : List EmotionTrial,
      0 ≤ calculateEmotionScore (some ts) ∧ calculateEmotionScore (some ts) ≤ 100) ∧
    (∀ ts : List PatternTrial,
      0 ≤ calculatePatternScore (some ts) ∧ calculatePatternScore (some ts) ≤ 100) ∧
    (∀ ts : List EmotionTrial, ts ≠ [] → (∀ t ∈ ts, t.isCorrect = true) →
      calculateEmotionScore (some ts) = 100) ∧
    (∀ ts : List PatternTrial, ts ≠ [] → (∀ t ∈ ts, t.isCorrect = true) →
      calculatePatternScore (some ts) = 100) ∧
    (∀ ts : List EmotionTrial, (∀ t ∈ ts, t.isCorrect = false) →
      calculateEmotionScore (some ts) = 0) ∧
    (∀ ts : List PatternTrial, (∀ t ∈ ts, t.isCorrect = false) →
      calculatePatternScore (some ts) = 0) := by
  refine ⟨⟨by decide, by decide⟩, ?_, ?_, ?_, ?_, ?_, ?_, ?_, ?_⟩
  · intro ts hne
    have hlen : ts.length ≠ 0 := by simpa [List.length_eq_zero] using hne
    simp only [calculateEmotionScore, if_neg hlen]
    congr 1
    ring
  · intro ts hne
    have hlen : ts.length ≠ 0 := by simpa [List.length_eq_zero] using hne
    simp only [calculatePatternScore, if_neg hlen]
    congr 1
    ring
  · intro ts
    by_cases hlen : ts.length = 0
    · simp [calculateEmotionScore, hlen]
    · simp only [calculateEmotionScore, if_neg hlen]
      exact percent_bounds (List.length_filter_le _ _)
  · intro ts
    by_cases hlen : ts.length = 0
    · simp [calculatePatternScore, hlen]
    · simp only [calculatePatternScore, if_neg hlen]
      exact percent_bounds (List.length_filter_le _ _)
  · intro ts hne hall
    have hlen : ts.length ≠ 0 := by simpa [List.length_eq_zero] using hne
    have hfil : ts.filter (fun t => t.isCorrect) = ts :=
      List.filter_eq_self.mpr (fun a ha => hall a ha)
    simp only [calculateEmotionScore, if_neg hlen, hfil]
    exact percent_all hlen
  · intro ts hne hall
    have hlen : ts.length ≠ 0 := by simpa [List.length_eq_zero] using hne
    have hfil : ts.filter (fun t => t.isCorrect) = ts :=
      List.filter_eq_self.mpr (fun a ha => hall a ha)
    simp only [calculatePatternScore, if_neg hlen, hfil]
    exact percent_all hlen
  · intro ts hall
    by_cases hlen : ts.length = 0
    · simp [calculateEmotionScore, hlen]
    · have hfil : ts.filter (fun t => t.isCorrect) = [] :=
        List.filter_eq_nil_iff.mpr (fun a ha => by simp [hall a ha])
      simp only [calculateEmotionScore, if_neg hlen, hfil]
      norm_num [jsRoundQ]
  · intro ts hall
    by_cases hlen : ts.length = 0
    · simp [calculatePatternScore, hlen]
    · have hfil : ts.filter (fun t => t.isCorrect) = [] :=
        List.filter_eq_nil_iff.mpr (fun a ha => by simp [hall a ha])
      simp only [calculatePatternScore, if_neg hlen, hfil]
      norm_num [jsRoundQ]

/-- Witness for C4: the formula and bound statements applied to the four-trial
list with three correct answers (score 75), and an all-correct singleton. -/
theorem C4_witness :
    calculateEmotionScore (some [⟨true⟩, ⟨true⟩, ⟨true⟩, ⟨false⟩]) = 75 ∧
    calculatePatternScore (some [⟨true⟩]) = 100 := by
  constructor
  · rw [C4_percentage_scores.2.1 [⟨true⟩, ⟨true⟩, ⟨true⟩, ⟨false⟩] (by decide)]
    decide
  · exact C4_percentage_scores.2.2.2.2.2.2.1 [⟨true⟩] (by decide) (by simp)

/-! ## Claim C5 -/

/-- Claim C5 (confirmed): the interpretation functions are three-tier
first-match-wins threshold maps, inclusive at the named boundaries:
emotion/pattern `≥80` strong, `60 ≤ s < 80` moderate, `<60` difficulty;
reaction `≤300` quick, `300 < s ≤ 500` moderate delay, `>500` delayed; with
the boundary cases 80, 79, 300 and 301. -/
theorem C5_interpretation_tiers :
    (∀ s : ℤ, 80 ≤ s → interpretEmotionScore s = "Strong emotion recognition abilities") ∧
    (∀ s : ℤ, 60 ≤ s → s < 80 →
      interpretEmotionScore s = "Moderate emotion recognition abilities") ∧
    (∀ s : ℤ, s < 60 →
      interpretEmotionScore s =
        "Difficulty with emotion recognition, further assessment recommended") ∧
    (∀ s : ℤ, 80 ≤ s → interpretPatternScore s = "Strong pattern recognition and memory abilities") ∧
    (∀ s : ℤ, 60 ≤ s → s < 80 →
      interpretPatternScore s = "Moderate pattern recognition abilities") ∧
    (∀ s : ℤ, s < 60 →
      interpretPatternScore s =
        "Difficulty with pattern recognition, further assessment recommended") ∧
    (∀ q : ℚ, q ≤ 300 →
      interpretReactionScore (JSNum.num q) = "Quick reaction time, within typical range") ∧
    (∀ q : ℚ, 300 < q → q ≤ 500 →
      interpretReactionScore (JSNum.num q) = "Moderate reaction time") ∧
    (∀ q : ℚ, 500 < q →
      interpretReactionScore (JSNum.num q) =
        "Delayed reaction time, may indicate attention processing differences") ∧
    interpretEmotionScore 80 = "Strong emotion recognition abilities" ∧
    interpretEmotionScore 79 = "Moderate emotion recognition abilities" ∧
    interpretReactionScore (JSNum.num 300) = "Quick reaction time, within typical range" ∧
    interpretReactionScore (JSNum.num 301) = "Moderate reaction time" := by
  refine ⟨?_, ?_, ?_, ?_, ?_, ?_, ?_, ?_, ?_, by decide, by decide, by decide, by decide⟩
  · intro s h; rw [interpretEmotionScore, if_pos h]
  · intro s h1 h2; rw [interpretEmotionScore, if_neg (by omega), if_pos h1]
  · intro s h; rw [interpretEmotionScore, if_neg (by omega), if_neg (by omega)]
  · intro s h; rw [interpretPatternScore, if_pos h]
  · intro s h1 h2; rw [interpretPatternScore, if_neg (by omega), if_pos h1]
  · intro s h; rw [interpretPatternScore, if_neg (by omega), if_neg (by omega)]
  · intro q h; simp [interpretReactionScore, jsLe, h]
  · intro q h1 h2; simp [interpretReactionScore, jsLe, h2, not_le.mpr h1]
  · intro q h
    simp [interpretReactionScore, jsLe, not_le.mpr h,
      not_le.mpr (lt_trans (by norm_num : (300 : ℚ) < 500) h)]

/-- Witness for C5: one input per threshold tier. -/
theorem C5_witness :
    interpretEmotionScore 95 = "Strong emotion recognition abilities" ∧
    interpretEmotionScore 70 = "Moderate emotion recognition abilities" ∧
    interpretEmotionScore 10 =
      "Difficulty with emotion recognition, further assessment recommended" ∧
    interpretPatternScore 95 = "Strong pattern recognition and memory abilities" ∧
    interpretPatternScore 70 = "Moderate pattern recognition abilities" ∧
    interpretPatternScore 10 =
      "Difficulty with pattern recognition, further assessment recommended" ∧
    interpretReactionScore (JSNum.num 200) = "Quick reaction time, within typical range" ∧
    interpretReactionScore (JSNum.num 400) = "Moderate reaction time" ∧
    interpretReactionScore (JSNum.num 600) =
      "Delayed reaction time, may indicate attention processing differences" := by
  obtain ⟨h1, h2, h3, h4, h5, h6, h7, h8, h9, -⟩ := C5_interpretation_tiers
  exact ⟨h1 95 (by decide), h2 70 (by decide) (by decide), h3 10 (by decide),
    h4 95 (by decide), h5 70 (by decide) (by decide), h6 10 (by decide),
    h7 200 (by decide), h8 400 (by decide) (by decide), h9 600 (by decide)⟩

/-! ## Claim C6 -/

/-- Claim C6 (corrected): validation passes exactly when `testResults` and
`patientInfo` are present and `patientInfo.id`, `.name` and `.age` are truthy;
`gender` is never checked (the counterexample), and a falsy-but-present field
(empty string, zero) is also rejected. The second conjunct lifts this to the
route: a 400 is produced exactly when this condition fails. -/
theorem C6_validation_exactly :
    (∀ body : RequestBody,
      validateReportData body = ValidationOutcome.pass ↔ requiredFieldsTruthy body) ∧
    (∀ (body : RequestBody) (llm : Except Unit String) (now : String),
      (∃ e, generateReportHandler body llm now = HandlerResult.badRequest e) ↔
        ¬ requiredFieldsTruthy body) := by
  refine ⟨validate_pass_iff, ?_⟩
  intro body llm now
  rw [← validate_pass_iff]
  constructor
  · rintro ⟨e, he⟩ hpass
    cases htr : body.testResults with
    | none => simp [generateReportHandler, hpass, htr] at he
    | some tr =>
      cases hpi : body.patientInfo with
      | none => simp [generateReportHandler, hpass, htr, hpi] at he
      | some pinfo =>
        cases llm with
        | error u => simp [generateReportHandler, hpass, htr, hpi] at he
        | ok content => simp [generateReportHandler, hpass, htr, hpi] at he
  · intro hne
    cases h : validateReportData body with
    | reject e => exact ⟨e, by simp [generateReportHandler, h]⟩
    | pass => exact absurd h hne

/-- Counterexample to claim C6 as stated: `patientInfo.gender` is absent yet
validation passes — the claim requires a 400 when any of the four fields,
gender included, is missing. -/
theorem C6_counterexample :
    validateReportData
      ⟨some ⟨none, none, none⟩, some ⟨some "p1", some "Alex", some 8, none⟩⟩ =
      ValidationOutcome.pass := by decide

/-! ## Claim C1 -/

/-- Claim C1 (corrected): for every request that passes validation, a failure
of the outbound LLM call makes the `catch` handler of
`router.post('/generate-report')` respond 500 with
`{error: 'Failed to generate report'}` — not a degraded 200 with a fallback
report as the claim states. -/
theorem C1_llm_failure_returns_500 :
    ∀ (body : RequestBody) (now : String),
      validateReportData body = ValidationOutcome.pass →
      generateReportHandler body (Except.error ()) now =
        HandlerResult.serverError "Failed to generate report" := by
  intro body now hpass
  obtain ⟨htr, pinfo, hpi, -, -, -⟩ := (validate_pass_iff body).mp hpass
  obtain ⟨tr, htr'⟩ := Option.ne_none_iff_exists'.mp htr
  simp [generateReportHandler, hpass, htr', hpi]

/-- Counterexample to claim C1 as stated: on a valid request whose LLM call
fails, the endpoint responds 500 (`serverError`), not 200 with a fallback
report. -/
theorem C1_counterexample :
    generateReportHandler
      ⟨some ⟨none, none, none⟩, some ⟨some "p1", some "Alex", some 8, some "male"⟩⟩
      (Except.error ()) "2024-01-01T00:00:00.000Z" =
      HandlerResult.serverError "Failed to generate report" := by decide

/-- Witness for C1: the 500-on-LLM-failure theorem at a concrete valid body. -/
theorem C1_witness :
    generateReportHandler
      ⟨some ⟨none, none, none⟩, some ⟨some "p2", some "Sam", some 9, some "female"⟩⟩
      (Except.error ()) "t" = HandlerResult.serverError "Failed to generate report" :=
  C1_llm_failure_returns_500 _ "t" (by decide)

/-! ## Claim C10 -/

/-- Claim C10 (confirmed): each `calculate*` returns 0 on an absent, null or
empty test array instead of raising; validation never inspects the contents of
`testResults` (swapping any two contents yields the same outcome); and a valid
request whose `testResults` has none of the three arrays proceeds to a 200
report with all-zero scores. -/
theorem C10_missing_test_arrays :
    calculateEmotionScore none = 0 ∧ calculateEmotionScore (some []) = 0 ∧
    calculateReactionScore none = JSNum.num 0 ∧ calculateReactionScore (some []) = JSNum.num 0 ∧
    calculatePatternScore none = 0 ∧ calculatePatternScore (some []) = 0 ∧
    (∀ (tr tr' : TestResults) (pinfo : Option PatientInfo),
      validateReportData ⟨some tr, pinfo⟩ = validateReportData ⟨some tr', pinfo⟩) ∧
    generateReportHandler
      ⟨some ⟨none, none, none⟩, some ⟨some "p1", some "Alex", some 8, some "male"⟩⟩
      (Except.ok "done") "ts" =
      HandlerResult.ok
        { patientInfo := ⟨some "p1", some "Alex", some 8, some "male"⟩,
          scores := ⟨0, JSNum.num 0, 0⟩,
          observations := [],
          interpretations :=
            ⟨"Difficulty with emotion recognition, further assessment recommended",
             "Quick reaction time, within typical range",
             "Difficulty with pattern recognition, further assessment recommended"⟩,
          recommendations := [],
          redFlags := [],
          timestamp := "ts" } := by
  refine ⟨by decide, by decide, by decide, by decide, by decide, by decide, ?_, by decide⟩
  intro tr tr' pinfo
  cases pinfo <;> simp [validateReportData]

/-! ## Parser helper lemmas -/

theorem matchPatternLen_pos {cs : List Char} {n : Nat} (h : matchPatternLen cs = some n) :
    1 ≤ n := by
  match cs with
  | [] => simp [matchPatternLen] at h
  | [c] => simp [matchPatternLen] at h
  | c :: d :: rest =>
    simp only [matchPatternLen] at h
    split_ifs at h
    all_goals first
      | exact absurd h (by simp)
      | (split at h
         · injection h with h'
           omega
         · exact absurd h (by simp))

theorem splitFuel_congr :
    ∀ (f1 : Nat) {cs : List Char} {f2 : Nat} (acc : List Char),
      cs.length < f1 → cs.length < f2 → splitFuel f1 cs acc = splitFuel f2 cs acc := by
  intro f1
  induction f1 with
  | zero => intro cs f2 acc h1 _; omega
  | succ f ih =>
    intro cs f2 acc h1 h2
    cases f2 with
    | zero => omega
    | succ g =>
      cases cs with
      | nil => rfl
      | cons c rest =>
        cases hm : matchPatternLen (c :: rest) with
        | none =>
          simp only [splitFuel, hm]
          exact ih (c :: acc) (by simp at h1; omega) (by simp at h2; omega)
        | some n =>
          have hn : 1 ≤ n := matchPatternLen_pos hm
          simp only [splitFuel, hm]
          exact congrArg (fun x => acc.reverse :: x)
            (@ih (List.drop n (c :: rest)) g []
              (by simp only [List.length_drop, List.length_cons] at h1 ⊢; omega)
              (by simp only [List.length_drop, List.length_cons] at h2 ⊢; omega))

theorem splitFuel_noMatch :
    ∀ (f : Nat) {cs : List Char} (acc : List Char),
      cs.length < f → containsPattern cs = false →
      splitFuel f cs acc = [acc.reverse ++ cs] := by
  intro f
  induction f with
  | zero => intro cs acc h _; omega
  | succ g ih =>
    intro cs acc h hno
    cases cs with
    | nil => simp [splitFuel]
    | cons c rest =>
      have hm : matchPatternLen (c :: rest) = none := by
        cases hh : matchPatternLen (c :: rest) with
        | none => rfl
        | some n => simp [containsPattern, hh] at hno
      have hrest : containsPattern rest = false := by
        simpa [containsPattern, hm] using hno
      simp only [splitFuel, hm]
      rw [ih (c :: acc) (by simp at h; omega) hrest]
      simp

theorem getLastOpt_cons_elim {α β : Type} (a : α) (l : List α) (d : β) (f : α → β) :
    ((a :: l).getLast?).elim d f = (l.getLast?).elim (f a) f := by
  induction l generalizing a d with
  | nil => simp
  | cons b m ih => rw [List.getLast?_cons_cons, ih, ih]

theorem classifyStep_eq (st : GeneratedReport) (p : Nat × String) :
    classifyStep st p.1 p.2 =
      if obsClassified p then
        { st with observations := st.observations ++ obsEntriesOf p }
      else if recClassified p then
        { st with recommendations := st.recommendations ++ recEntriesOf p }
      else if redClassified p then
        { st with redFlags := redEntriesOf p }
      else st := by
  obtain ⟨idx, sec⟩ := p
  simp only [classifyStep, obsClassified, recClassified, redClassified,
    obsEntriesOf, recEntriesOf, redEntriesOf]
  by_cases h1 : obsCond idx (jsTrim sec) = true <;>
  by_cases h2 : recCond idx (jsTrim sec) = true <;>
  by_cases h3 : redCond idx (jsTrim sec) = true <;>
  simp [h1, h2, h3]

theorem parse_foldl_spec :
    ∀ (l : List (Nat × String)) (st : GeneratedReport),
      l.foldl (fun st p => classifyStep st p.1 p.2) st =
        { observations := st.observations ++ (l.filter obsClassified).flatMap obsEntriesOf,
          recommendations := st.recommendations ++ (l.filter recClassified).flatMap recEntriesOf,
          redFlags := ((l.filter redClassified).getLast?).elim st.redFlags redEntriesOf } := by
  intro l
  induction l with
  | nil => intro st; simp
  | cons p l ih =>
    intro st
    rw [List.foldl_cons, ih, classifyStep_eq]
    by_cases h1 : obsClassified p = true
    · have h2 : recClassified p = false := by
        simp only [obsClassified] at h1
        simp [recClassified, h1]
      have h3 : redClassified p = false := by
        simp only [obsClassified] at h1
        simp [redClassified, h1]
      simp [h1, h2, h3, List.filter_cons, List.append_assoc]
    · by_cases h2 : recClassified p = true
      · have h3 : redClassified p = false := by
          simp only [recClassified, Bool.and_eq_true] at h2
          simp [redClassified, h2.2]
        simp [h1, h2, h3, List.filter_cons, List.append_assoc]
      · by_cases h3 : redClassified p = true
        · simp [h1, h2, h3, List.filter_cons, getLastOpt_cons_elim]
        · simp [h1, h2, h3, List.filter_cons]

/-! ## Claim C7 -/

/-- Claim C7 (corrected): if no numbered section heading matches anywhere in
the input AND the (trimmed, lowercased) input contains none of the keywords
`observation`, `recommend`, `red flag`, then the parser returns three empty
lists. The keyword side condition is forced by the counterexample below: the
keyword branch fires even on an unsplit single fragment. -/
theorem C7_no_heading_empty_output (content : String)
    (hpat : containsPattern content.data = false)
    (hobs : containsSub (jsToLower (jsTrim content)) "observation" = false)
    (hrec : containsSub (jsToLower (jsTrim content)) "recommend" = false)
    (hred : containsSub (jsToLower (jsTrim content)) "red flag" = false) :
    parseGeneratedReport content = ⟨[], [], []⟩ := by
  have hsplit : splitSections content.data = [content.data] := by
    rw [splitSections, splitFuel_noMatch _ _ (by omega) hpat]
    rfl
  rw [parseGeneratedReport, cleanSectionsOf, hsplit]
  simp only [List.map, string_mk_data]
  by_cases hemp : (jsTrim content == "") = true
  · simp [List.filter, hemp, parseFromSections]
  · simp only [List.filter, hemp, Bool.not_false]
    simp [parseFromSections, List.enum, List.enumFrom, classifyStep,
      obsCond, recCond, redCond, hobs, hrec, hred]

/-- Counterexample to claim C7 as stated: the input `"observation"` contains
no numbered section heading, yet the parser returns a nonempty observations
list (the keyword check fires on the single unsplit fragment). -/
theorem C7_counterexample :
    containsPattern (String.data "observation") = false ∧
    parseGeneratedReport "observation" =
      ⟨[⟨"Clinical Observation", "observation"⟩], [], []⟩ := by decide

/-- Witness for C7: a heading-free, keyword-free input through the theorem. -/
theorem C7_witness : parseGeneratedReport "hello world" = ⟨[], [], []⟩ :=
  C7_no_heading_empty_output "hello world" (by decide) (by decide) (by decide) (by decide)

/-! ## Claim C8 -/

/-- Claim C8 (confirmed): the parser is total — the recursion bound of the
section split does not matter once it exceeds the input length (this is the
shallow-embedding form of termination without raising), and the result is
always a record of three lists (possibly empty, never null). -/
theorem C8_parse_total (content : String) (fuel : Nat)
    (h : content.data.length < fuel) :
    parseGeneratedReportFuel fuel content = parseGeneratedReport content ∧
    ∃ obs recs flags, parseGeneratedReport content = ⟨obs, recs, flags⟩ := by
  constructor
  · rw [parseGeneratedReportFuel, parseGeneratedReport, cleanSectionsOf, splitSections,
      @splitFuel_congr fuel content.data (content.data.length + 1) [] h (by omega)]
  · exact ⟨_, _, _, rfl⟩

/-- Witness for C8: a concrete six-section-style input at an oversized fuel. -/
theorem C8_witness :
    parseGeneratedReportFuel 100 "1. DETAILED OBSERVATIONS\ngood eye contact" =
      parseGeneratedReport "1. DETAILED OBSERVATIONS\ngood eye contact" :=
  (C8_parse_total "1. DETAILED OBSERVATIONS\ngood eye contact" 100 (by decide)).1

/-! ## Claim C9 -/

/-- Claim C9 (confirmed): the three output lists are not accumulated
uniformly. For every input, observations and recommendations are the
concatenation of the entries of ALL fragments classified to them, while
redFlags equals the entries of only the LAST red-flag-classified fragment
(empty if there is none) — so earlier red-flag fragments are discarded, as
the concrete two-red-flag-fragment input demonstrates. -/
theorem C9_redflags_last_wins :
    (∀ content : String,
      parseGeneratedReport content =
        { observations :=
            (((cleanSectionsOf content).enum).filter obsClassified).flatMap obsEntriesOf,
          recommendations :=
            (((cleanSectionsOf content).enum).filter recClassified).flatMap recEntriesOf,
          redFlags :=
            ((((cleanSectionsOf content).enum).filter redClassified).getLast?).elim
              [] redEntriesOf }) ∧
    cleanSectionsOf demoContent = ["\nred flag a\n", "\nx\n", "\nred flag b"] ∧
    redClassified (0, "\nred flag a\n") = true ∧
    redClassified (2, "\nred flag b") = true ∧
    parseGeneratedReport demoContent =
      ⟨[⟨"Clinical Observation", "x"⟩], [], ["red flag b"]⟩ := by
  refine ⟨?_, by decide, by decide, by decide, by decide⟩
  intro content
  rw [parseGeneratedReport, parseFromSections, parse_foldl_spec]
  simp

end ASDScreening

